import Mathlib

/-!
Shallow embedding of the story-export engine of the `story-generator`
repository (`stories/export_service.py`, `stories/models.py`,
`api/views.py`), together with theorems settling the specification's
claims about it.

Conventions: Python `datetime` values are abstracted to an ordered
instant whose textual formattings are opaque (no claim depends on the
concrete timestamp text); nullable columns become `Option`; Python dicts
built by insertion become association lists in insertion order; the
empty dict returned by the metadata generator for an empty batch becomes
`none`; raised exceptions become `Except.error`.
-/

/-- Abstract instant in time (models Python `datetime` values; the engine
only formats timestamps and compares `created_at` values, so an ordered
abstract instant suffices). -/
abbrev Instant := Nat

/-- Models `datetime.strftime('%B %d, %Y at %I:%M %p')`.  The concrete
textual format is immaterial to every claim under verification; only
*where* formatted timestamps appear matters. -/
def fmtDateTime (t : Instant) : String := toString t

/-- Models `datetime.strftime('%Y%m%d_%H%M%S')` (ZIP download filename). -/
def fmtCompact (t : Instant) : String := toString t

/-- Models `datetime.isoformat()`. -/
def isoFormat (t : Instant) : String := toString t

/-- The fields of `stories.models.Story` read by the export engine
(`user.username` flattened to `username`; `rating` is a nullable integer
column, hence `Option Int`).  `word_count` is *not* a field: in the
source it is a `@property` recomputed from `content` (models.py 74-76). -/
structure Story where
  id : Nat
  title : String
  username : String
  keywords : String
  genre : String
  length : String
  tone : String
  content : String
  created_at : Instant
  rating : Option Int
  is_favorite : Bool
  ai_model_used : String
  deriving Repr, DecidableEq

/-- `Story.GENRE_CHOICES` (models.py 8-17). -/
def GENRE_CHOICES : List (String × String) :=
  [("fantasy", "Fantasy"), ("sci_fi", "Science Fiction"), ("romance", "Romance"),
   ("horror", "Horror"), ("mystery", "Mystery"), ("adventure", "Adventure"),
   ("drama", "Drama"), ("comedy", "Comedy")]

/-- `Story.LENGTH_CHOICES` (models.py 19-23). -/
def LENGTH_CHOICES : List (String × String) :=
  [("short", "Short (100-300 words)"), ("medium", "Medium (300-600 words)"),
   ("long", "Long (600-1000 words)")]

/-- `Story.TONE_CHOICES` (models.py 25-32). -/
def TONE_CHOICES : List (String × String) :=
  [("happy", "Happy"), ("dark", "Dark"), ("humorous", "Humorous"),
   ("dramatic", "Dramatic"), ("mysterious", "Mysterious"), ("romantic", "Romantic")]

/-- Django `get_FOO_display()`: the label of the stored choice value, or
the raw value when it is not among the choices. -/
def choiceDisplay (choices : List (String × String)) (v : String) : String :=
  (choices.lookup v).getD v

def Story.getGenreDisplay (s : Story) : String := choiceDisplay GENRE_CHOICES s.genre

def Story.getLengthDisplay (s : Story) : String := choiceDisplay LENGTH_CHOICES s.length

def Story.getToneDisplay (s : Story) : String := choiceDisplay TONE_CHOICES s.tone

/-- ASCII whitespace matched by Python `\s` / `str.split()` / `str.strip()`. -/
def isPyWs (c : Char) : Bool :=
  c = ' ' || c = '\t' || c = '\n' || c = '\r' || c = '\x0b' || c = '\x0c'

/-- Counts the maximal runs of non-whitespace characters, i.e. the length
of Python `content.split()`.  The boolean tracks whether the previous
character was inside a token. -/
def countTokens : List Char → Bool → Nat
  | [], _ => 0
  | c :: cs, inTok =>
    if isPyWs c then countTokens cs false
    else (if inTok then 0 else 1) + countTokens cs true

/-- `len(s.split())`: the number of whitespace-delimited tokens. -/
def whitespaceTokens (s : String) : Nat := countTokens s.data false

/-- The `Story.word_count` property (models.py 74-76):
`len(self.content.split()) if self.content else 0`. -/
def Story.word_count (s : Story) : Nat :=
  if s.content = "" then 0 else whitespaceTokens s.content

/-- Python truthiness of the nullable integer `rating` column: `None`
and `0` are falsy, every other integer is truthy. -/
def truthyRating : Option Int → Bool
  | none => false
  | some r => r != 0

/-- Python `a or b` for strings: the empty string is falsy. -/
def pyOr (a b : String) : String := if a = "" then b else a

/-- ASCII word character of the regex `\w`: alphanumeric or underscore. -/
def isWordChar (c : Char) : Bool := c.isAlphanum || c = '_'

/-- `re.sub(r'[-\s]+', '-', value)`: each maximal run of hyphens and
whitespace becomes a single hyphen.  The boolean tracks whether the
previous character belonged to such a run. -/
def collapseDashWs : List Char → Bool → List Char
  | [], _ => []
  | c :: cs, inRun =>
    if isPyWs c || c = '-' then
      (if inRun then [] else ['-']) ++ collapseDashWs cs true
    else c :: collapseDashWs cs false

def isDashUnderscore (c : Char) : Bool := c = '-' || c = '_'

/-- Python `str.strip('-_')`. -/
def stripDashUnderscore (cs : List Char) : List Char :=
  ((cs.dropWhile isDashUnderscore).reverse.dropWhile isDashUnderscore).reverse

/-- `django.utils.text.slugify` (allow_unicode=False) on ASCII input:
lower-case, drop every character that is not a word character,
whitespace or a hyphen (`re.sub(r'[^\w\s-]', '', ...)`), collapse runs
of whitespace/hyphens to one hyphen, strip leading/trailing hyphens and
underscores.  (The library's Unicode NFKD/ASCII-encode step is the
identity on ASCII input and is not modelled.) -/
def slugify (s : String) : String :=
  ⟨stripDashUnderscore
    (collapseDashWs
      ((s.data.map Char.toLower).filter fun c => isWordChar c || isPyWs c || c = '-')
      false)⟩

/-- Python `'\n'.join(lines)`. -/
def joinLines : List String → String
  | [] => ""
  | [l] => l
  | l :: l' :: ls => l ++ "\n" ++ joinLines (l' :: ls)

/-- `"=" * 60`, the separator rule of the TXT renderer. -/
def sepRule : String := ⟨List.replicate 60 '='⟩

/-- The attribution footer line embedding the export timestamp
(export_service.py 209 and 281 use the same f-string). -/
def footerLine (now : Instant) : String :=
  "Exported from AI Story Generator on " ++ fmtDateTime now

def repoLink : String := "https://github.com/your-username/ai-story-generator"

/-- The first nine lines of `_generate_txt_content`
(export_service.py 181-191). -/
def txtHeaderLines (s : Story) : List String :=
  [ "Title: " ++ pyOr s.title "Untitled Story",
    "Author: " ++ s.username,
    "Created: " ++ fmtDateTime s.created_at,
    "Genre: " ++ s.getGenreDisplay,
    "Length: " ++ s.getLengthDisplay,
    "Tone: " ++ s.getToneDisplay,
    "Keywords: " ++ s.keywords,
    "Word Count: " ++ toString s.word_count ++ " words",
    "" ]

/-- Lines 193-195: the `if story.rating:` gate (Python truthiness). -/
def txtRatingLines (s : Story) : List String :=
  if truthyRating s.rating then
    ["Rating: " ++ toString (s.rating.getD 0) ++ "/5 stars", ""]
  else []

/-- Lines 197-199: the `if story.ai_model_used != 'simple_algorithm':` gate. -/
def txtAiLines (s : Story) : List String :=
  if s.ai_model_used ≠ "simple_algorithm" then
    ["Generated with: " ++ s.ai_model_used, ""]
  else []

/-- The `lines.extend([...])` tail of `_generate_txt_content`
(lines 201-211). -/
def txtTailLines (s : Story) (now : Instant) : List String :=
  [sepRule, "STORY CONTENT", sepRule, "", s.content, "", sepRule,
   footerLine now, repoLink]

/-- `_generate_txt_content` (export_service.py 179-213): the list of lines
whose `'\n'.join` is the plain-text rendering. -/
def txtLinesOf (s : Story) (now : Instant) : List String :=
  txtHeaderLines s ++ txtRatingLines s ++ txtAiLines s ++ txtTailLines s now

/-- The plain-text renderer.  `now` is the `datetime.now()` read at line 209. -/
def generateTxtContent (s : Story) (now : Instant) : String :=
  joinLines (txtLinesOf s now)

/-- ReportLab flowables as far as the engine constructs them: a styled
paragraph or a spacer. -/
inductive PdfElement
  | para (text : String) (style : String)
  | spacer (w h : Nat)
  deriving Repr, DecidableEq

/-- Python `str.strip()`. -/
def pyStrip (s : String) : String :=
  ⟨((s.data.dropWhile isPyWs).reverse.dropWhile isPyWs).reverse⟩

/-- The `metadata_lines` list of `_build_pdf_elements`
(export_service.py 246-259), including the rating and model gates. -/
def pdfMetadataLines (s : Story) : List String :=
  [ "<b>Author:</b> " ++ s.username,
    "<b>Created:</b> " ++ fmtDateTime s.created_at,
    "<b>Genre:</b> " ++ s.getGenreDisplay,
    "<b>Length:</b> " ++ s.getLengthDisplay,
    "<b>Tone:</b> " ++ s.getToneDisplay,
    "<b>Word Count:</b> " ++ toString s.word_count ++ " words" ]
  ++ (if truthyRating s.rating then
        ["<b>Rating:</b> " ++ toString (s.rating.getD 0) ++ "/5 stars"]
      else [])
  ++ (if s.ai_model_used ≠ "simple_algorithm" then
        ["<b>Generated with:</b> " ++ s.ai_model_used]
      else [])

/-- Body paragraphs (lines 272-277): split the content on blank lines,
skip paragraphs that strip to nothing, and follow each kept paragraph by
a small spacer. -/
def pdfBodyElements (content : String) : List PdfElement :=
  ((content.splitOn "\n\n").map fun p =>
    if pyStrip p = "" then ([] : List PdfElement)
    else [.para (pyStrip p) "content", .spacer 1 6]).flatten

/-- `_build_pdf_elements` (export_service.py 236-284).  `now` is the
`datetime.now()` read in the footer at line 281. -/
def buildPdfElements (s : Story) (now : Instant) : List PdfElement :=
  [.para (pyOr s.title "Untitled Story") "title", .spacer 1 20]
  ++ (pdfMetadataLines s).map (fun l => .para l "meta")
  ++ [.spacer 1 10,
      .para ("<b>Keywords:</b> " ++ s.keywords) "keywords",
      .spacer 1 20]
  ++ pdfBodyElements s.content
  ++ [.spacer 1 30, .para (footerLine now) "meta"]

/-- Floor of a rational (by the `Rat` numerator/denominator invariant,
`num.fdiv den` is the floor). -/
def ratFloor (q : ℚ) : ℤ := q.num.fdiv q.den

/-- Python `round(x, 1)` on an exact rational value: round half to even
at one decimal place. -/
def pyRound1 (q : ℚ) : ℚ :=
  let x := q * 10
  let f := ratFloor x
  let i : ℤ :=
    if x - (f : ℚ) < 1/2 then f
    else if x - (f : ℚ) > 1/2 then f + 1
    else if f % 2 = 0 then f else f + 1
  (i : ℚ) / 10

structure DateRange where
  oldest : String
  newest : String
  deriving Repr, DecidableEq

/-- The `collection_info` sub-dict of the metadata document
(export_service.py 311-320); note that `total_stories` lives here. -/
structure CollectionInfo where
  title : String
  author : String
  export_date : String
  total_stories : Nat
  date_range : DateRange
  deriving Repr, DecidableEq

structure GenerationMethods where
  ai_generated : Nat
  template_based : Nat
  deriving Repr, DecidableEq

/-- The `statistics` sub-dict (export_service.py 321-330). -/
structure CollectionStats where
  total_words : Nat
  average_words_per_story : ℚ
  average_rating : Option ℚ
  genre_distribution : List (String × Nat)
  generation_methods : GenerationMethods
  deriving Repr, DecidableEq

/-- One element of the `stories` array (export_service.py 331-343). -/
structure StoryListing where
  id : Nat
  title : String
  created_at : String
  genre : String
  word_count : Nat
  rating : Option Int
  is_favorite : Bool
  ai_model : String
  deriving Repr, DecidableEq

structure CollectionMetadata where
  collection_info : CollectionInfo
  statistics : CollectionStats
  stories : List StoryListing
  deriving Repr, DecidableEq

/-- `total_words = sum(story.word_count for story in stories)` (line 293). -/
def totalWords (stories : List Story) : Nat :=
  (stories.map Story.word_count).sum

/-- The dict increment `genres[genre] = genres.get(genre, 0) + 1`,
preserving Python dict insertion order. -/
def bumpGenre : List (String × Nat) → String → List (String × Nat)
  | [], g => [(g, 1)]
  | (k, v) :: rest, g =>
    if k = g then (k, v + 1) :: rest else (k, v) :: bumpGenre rest g

/-- The genre-distribution loop (lines 297-300). -/
def genreDistribution (stories : List Story) : List (String × Nat) :=
  stories.foldl (fun m s => bumpGenre m s.getGenreDisplay) []

/-- `rated_stories = [s for s in stories if s.rating]` (line 303):
a truthiness filter, so a rating of `0` is excluded like `None`. -/
def ratedStories (stories : List Story) : List Story :=
  stories.filter fun s => truthyRating s.rating

/-- `sum(s.rating for s in rated_stories)`. -/
def sumRatings (l : List Story) : Int :=
  (l.map fun s => s.rating.getD 0).sum

/-- `avg_rating = sum(...) / len(...) if rated_stories else None` (line 304). -/
def avgRatingRaw (stories : List Story) : Option ℚ :=
  let rated := ratedStories stories
  if rated = [] then none
  else some ((sumRatings rated : ℚ) / (rated.length : ℚ))

/-- `'average_rating': round(avg_rating, 1) if avg_rating else None`
(line 324) — Python float truthiness, so an average of exactly 0 would
also become `None`. -/
def avgRatingField (stories : List Story) : Option ℚ :=
  match avgRatingRaw stories with
  | none => none
  | some v => if v ≠ 0 then some (pyRound1 v) else none

/-- `ai_stories = sum(1 for s in stories if s.ai_model_used != 'simple_algorithm')`
(line 307). -/
def aiCount (stories : List Story) : Nat :=
  stories.countP fun s => s.ai_model_used != "simple_algorithm"

/-- One element of the `stories` array (lines 332-341). -/
def listingOf (s : Story) : StoryListing :=
  { id := s.id, title := pyOr s.title "Untitled",
    created_at := isoFormat s.created_at, genre := s.getGenreDisplay,
    word_count := s.word_count, rating := s.rating,
    is_favorite := s.is_favorite, ai_model := s.ai_model_used }

/-- `min(s.created_at for s in stories)` over the non-empty batch. -/
def oldestCreated (s0 : Story) (rest : List Story) : Instant :=
  (rest.map Story.created_at).foldl min s0.created_at

/-- `max(s.created_at for s in stories)` over the non-empty batch. -/
def newestCreated (s0 : Story) (rest : List Story) : Instant :=
  (rest.map Story.created_at).foldl max s0.created_at

/-- `_generate_collection_metadata` (export_service.py 286-344).  The
Python function returns the empty dict `{}` for an empty input
(lines 288-289); that case is modelled as `none`.  `now` is the
`datetime.now()` read at line 314. -/
def generateCollectionMetadata (stories : List Story) (now : Instant) :
    Option CollectionMetadata :=
  match stories with
  | [] => none
  | s0 :: rest =>
    some
      { collection_info :=
          { title := "Story Collection - " ++ s0.username,
            author := s0.username,
            export_date := isoFormat now,
            total_stories := (s0 :: rest).length,
            date_range :=
              { oldest := isoFormat (oldestCreated s0 rest),
                newest := isoFormat (newestCreated s0 rest) } },
        statistics :=
          { total_words := totalWords (s0 :: rest),
            average_words_per_story :=
              pyRound1 (if (s0 :: rest).length > 0 then
                  (totalWords (s0 :: rest) : ℚ) / ((s0 :: rest).length : ℚ)
                else 0),
            average_rating := avgRatingField (s0 :: rest),
            genre_distribution := genreDistribution (s0 :: rest),
            generation_methods :=
              { ai_generated := aiCount (s0 :: rest),
                template_based := (s0 :: rest).length - aiCount (s0 :: rest) } },
        stories := (s0 :: rest).map listingOf }

/-- JSON values, for stating claims about the *serialized*
`collection_info.json` document (`json.dumps(metadata)`, line 148). -/
inductive JsonVal
  | null
  | bool (b : Bool)
  | num (q : ℚ)
  | str (s : String)
  | arr (elems : List JsonVal)
  | obj (fields : List (String × JsonVal))

def jsonOfOptRating : Option Int → JsonVal
  | none => .null
  | some r => .num (r : ℚ)

def jsonOfListing (e : StoryListing) : JsonVal :=
  .obj [("id", .num (e.id : ℚ)), ("title", .str e.title),
        ("created_at", .str e.created_at), ("genre", .str e.genre),
        ("word_count", .num (e.word_count : ℚ)),
        ("rating", jsonOfOptRating e.rating),
        ("is_favorite", .bool e.is_favorite),
        ("ai_model", .str e.ai_model)]

/-- The serialized shape of the metadata document, key for key as the
dict literal of lines 310-344 writes it. -/
def jsonOfMetadata (m : CollectionMetadata) : JsonVal :=
  .obj
    [ ("collection_info", .obj
        [ ("title", .str m.collection_info.title),
          ("author", .str m.collection_info.author),
          ("export_date", .str m.collection_info.export_date),
          ("total_stories", .num (m.collection_info.total_stories : ℚ)),
          ("date_range", .obj
            [ ("oldest", .str m.collection_info.date_range.oldest),
              ("newest", .str m.collection_info.date_range.newest) ]) ]),
      ("statistics", .obj
        [ ("total_words", .num (m.statistics.total_words : ℚ)),
          ("average_words_per_story", .num m.statistics.average_words_per_story),
          ("average_rating",
            match m.statistics.average_rating with
            | none => .null
            | some q => .num q),
          ("genre_distribution", .obj
            (m.statistics.genre_distribution.map fun kv => (kv.1, .num (kv.2 : ℚ)))),
          ("generation_methods", .obj
            [ ("ai_generated", .num (m.statistics.generation_methods.ai_generated : ℚ)),
              ("template_based", .num (m.statistics.generation_methods.template_based : ℚ)) ]) ]),
      ("stories", .arr (m.stories.map jsonOfListing)) ]

/-- `json.dumps` of the aggregator result: the empty JSON object for an
empty batch, the full document otherwise. -/
def jsonCollectionDocument : Option CollectionMetadata → JsonVal
  | none => .obj []
  | some m => jsonOfMetadata m

/-- Key lookup in a JSON object. -/
def jsonGet : JsonVal → String → Option JsonVal
  | .obj fields, k => fields.lookup k
  | .null, _ => none
  | .bool _, _ => none
  | .num _, _ => none
  | .str _, _ => none
  | .arr _, _ => none

/-- The payload of an archive entry or single-export response, one
constructor per renderer.  The markup renderer applies a fixed Django
template (`exports/story_export.html`, outside the export engine's own
code) to the context `{story, export_date, word_count}` built at
export_service.py 228-232; its output is therefore modelled as that
context. -/
inductive EntryContent
  | txtC (content : String)
  | pdfC (elements : List PdfElement)
  | htmlC (s : Story) (export_date : Instant) (word_count : Nat)
  | jsonC (metadata : Option CollectionMetadata)
  deriving Repr, DecidableEq

structure ZipEntry where
  name : String
  content : EntryContent
  deriving Repr, DecidableEq

structure ZipResponse where
  entries : List ZipEntry
  content_type : String
  filename : String
  deriving Repr, DecidableEq

structure ExportResponse where
  content : EntryContent
  content_type : String
  filename : String
  deriving Repr, DecidableEq

/-- The filename pattern `f"{slugify(story.title or 'story')}_{story.id}"`
plus extension, shared by every export path (export_service.py
74, 95, 116, 134, 137, 140). -/
def exportFilename (s : Story) (ext : String) : String :=
  slugify (pyOr s.title "story") ++ "_" ++ toString s.id ++ ext

/-- One iteration of the `for story in stories` loop of
`export_multiple_stories_zip` (lines 131-144): a supported format yields
an entry, any other format hits `else: continue` and yields nothing. -/
def zipEntryFor (fmt : String) (now : Instant) (s : Story) : Option ZipEntry :=
  if fmt = "txt" then some ⟨exportFilename s ".txt", .txtC (generateTxtContent s now)⟩
  else if fmt = "pdf" then some ⟨exportFilename s ".pdf", .pdfC (buildPdfElements s now)⟩
  else if fmt = "html" then some ⟨exportFilename s ".html", .htmlC s now s.word_count⟩
  else none

/-- `export_multiple_stories_zip` (export_service.py 125-157): the item
entries in input order followed by the `collection_info.json` entry. -/
def exportMultipleStoriesZip (stories : List Story) (fmt : String) (now : Instant) :
    ZipResponse :=
  { entries := stories.filterMap (zipEntryFor fmt now)
      ++ [⟨"collection_info.json", .jsonC (generateCollectionMetadata stories now)⟩],
    content_type := "application/zip",
    filename := "stories_collection_" ++ fmtCompact now ++ ".zip" }

/-- `export_user_collection` (export_service.py 163-177): `stories` is
the user's queryset (already filtered and ordered by the persistence
layer); an empty queryset raises `ValueError("No stories found for
export")` before any archive is built. -/
def exportUserCollection (stories : List Story) (fmt : String) (now : Instant) :
    Except String ZipResponse :=
  if stories.isEmpty then .error "No stories found for export"
  else .ok (exportMultipleStoriesZip stories fmt now)

/-- `export_story_txt` (export_service.py 68-81). -/
def exportStoryTxt (s : Story) (now : Instant) : ExportResponse :=
  ⟨.txtC (generateTxtContent s now), "text/plain", exportFilename s ".txt"⟩

/-- `export_story_pdf` (export_service.py 83-102). -/
def exportStoryPdf (s : Story) (now : Instant) : ExportResponse :=
  ⟨.pdfC (buildPdfElements s now), "application/pdf", exportFilename s ".pdf"⟩

/-- `export_story_html` (export_service.py 104-123). -/
def exportStoryHtml (s : Story) (now : Instant) : ExportResponse :=
  ⟨.htmlC s now s.word_count, "text/html", exportFilename s ".html"⟩

/-- HTTP error responses of the API views. -/
inductive ApiError
  | badRequest (msg : String)
  | notFound (msg : String)
  | serverError (msg : String)
  deriving Repr, DecidableEq

def invalidFormatMsg : String := "Invalid format. Supported formats: txt, pdf, html"

/-- `api.views.export_story` (api/views.py 199-214): dispatch on
`format_type`, with a 400 response for anything outside the closed set
and no renderer invoked in that case. -/
def apiExportStory (s : Story) (fmt : String) (now : Instant) :
    Except ApiError ExportResponse :=
  if fmt = "txt" then .ok (exportStoryTxt s now)
  else if fmt = "pdf" then .ok (exportStoryPdf s now)
  else if fmt = "html" then .ok (exportStoryHtml s now)
  else .error (.badRequest invalidFormatMsg)

def supportedFormats : List String := ["txt", "pdf", "html"]

/-- `api.views.export_multiple_stories` (api/views.py 222-252): empty id
list → 400, unsupported format → 400, no matching stories → 404,
otherwise delegate to the ZIP service.  `stories` is the queryset result
for `story_ids`. -/
def apiExportMultipleStories (story_ids : List Nat) (stories : List Story)
    (fmt : String) (now : Instant) : Except ApiError ZipResponse :=
  if story_ids.isEmpty then .error (.badRequest "No story IDs provided")
  else if fmt ∉ supportedFormats then .error (.badRequest invalidFormatMsg)
  else if stories.isEmpty then .error (.notFound "No valid stories found")
  else .ok (exportMultipleStoriesZip stories fmt now)

/-- `api.views.export_user_collection` (api/views.py 260-279): format
validated first, then the service's `ValueError` surfaces as 404. -/
def apiExportUserCollection (stories : List Story) (fmt : String) (now : Instant) :
    Except ApiError ZipResponse :=
  if fmt ∉ supportedFormats then .error (.badRequest invalidFormatMsg)
  else
    match exportUserCollection stories fmt now with
    | .error e => .error (.notFound e)
    | .ok r => .ok r

/-- The slug operation exactly as the specification's words describe it
(spec §4.5): lower-case the input, replace every run of non-alphanumeric
characters with a single hyphen, trim leading and trailing hyphens.
Stated only to compare against the source's `slugify`. -/
def specSlugCollapse : List Char → Bool → List Char
  | [], _ => []
  | c :: cs, inRun =>
    if c.isAlphanum then c :: specSlugCollapse cs false
    else (if inRun then [] else ['-']) ++ specSlugCollapse cs true

def specSlug (s : String) : String :=
  ⟨(((specSlugCollapse (s.data.map Char.toLower) false).dropWhile
      (fun c => c == '-')).reverse.dropWhile (fun c => c == '-')).reverse⟩

/-- A rating column value consistent with the documented domain: absent,
or an integer in `[1, 5]`. -/
def validRating (r : Option Int) : Bool :=
  match r with
  | none => true
  | some v => decide (1 ≤ v) && decide (v ≤ 5)

/-- Sample snapshot used by concrete witnesses and counterexamples. -/
def sampleA : Story :=
  { id := 1, title := "The Dragon", username := "alice", keywords := "dragon",
    genre := "fantasy", length := "short", tone := "happy",
    content := "Once upon a time.", created_at := 10,
    rating := some 4, is_favorite := false, ai_model_used := "gpt-3.5-turbo" }

/-- Sample snapshot whose title contains an underscore (exercises the
slug behaviour) and which carries no rating. -/
def sampleB : Story :=
  { id := 2, title := "a_b", username := "alice", keywords := "k",
    genre := "sci_fi", length := "medium", tone := "dark",
    content := "", created_at := 20,
    rating := none, is_favorite := true, ai_model_used := "simple_algorithm" }

/-! ## Helper lemmas -/

lemma word_count_eq_tokens (s : Story) : s.word_count = whitespaceTokens s.content := by
  unfold Story.word_count
  split
  · rename_i h
    rw [h]
    rfl
  · rfl

lemma joinLines_cons (a b : String) (l : List String) :
    joinLines (a :: b :: l) = a ++ "\n" ++ joinLines (b :: l) := rfl

lemma infix_of_mem_joinLines {l : String} {lines : List String} (hmem : l ∈ lines) :
    l.data <:+: (joinLines lines).data := by
  induction lines with
  | nil => cases hmem
  | cons a tail ih =>
    cases tail with
    | nil =>
      have : l = a := by simpa using hmem
      subst this
      exact List.infix_refl _
    | cons b t =>
      rw [joinLines_cons]
      rcases List.mem_cons.mp hmem with h | h
      · subst h
        have hd : (l ++ "\n" ++ joinLines (b :: t)).data
            = l.data ++ ("\n".data ++ (joinLines (b :: t)).data) := by
          simp [String.data_append]
        rw [hd]
        exact (List.prefix_append _ _).isInfix
      · have h1 := ih h
        have hd : (a ++ "\n" ++ joinLines (b :: t)).data
            = (a.data ++ "\n".data) ++ (joinLines (b :: t)).data := by
          simp [String.data_append]
        rw [hd]
        exact h1.trans (List.suffix_append _ _).isInfix

/-! ## C1 — empty export set -/

/-- **C1 (counterexample).**  At the concrete empty export set, the
statistics aggregator does not fail: it returns the empty metadata
document (`{}`, modelled `none`), and the batch builder invoked on the
empty set succeeds and produces an archive with one entry — refuting
"fails with an EmptyBatchError and produces no archive bytes; in
particular the statistics aggregator itself rejects an empty set". -/
theorem aggregator_accepts_empty_set :
    generateCollectionMetadata [] 0 = none ∧
    (exportMultipleStoriesZip [] "txt" 0).entries
      = [⟨"collection_info.json", .jsonC none⟩] ∧
    (exportMultipleStoriesZip [] "txt" 0).entries ≠ [] :=
  ⟨rfl, rfl, by simp [exportMultipleStoriesZip]⟩

/-- **C1 (amended).**  An empty export set is rejected upstream of the
aggregator: the user-collection service fails with
`"No stories found for export"` before building any archive, and the
batch API endpoint rejects an empty id list; the aggregator itself
performs no input validation — it returns the empty metadata document —
and the batch builder called directly on an empty set produces an
archive containing only the metadata entry. -/
theorem empty_export_set_handling (fmt : String) (now : Instant) (stories : List Story) :
    exportUserCollection [] fmt now = .error "No stories found for export" ∧
    generateCollectionMetadata [] now = none ∧
    (exportMultipleStoriesZip [] fmt now).entries
      = [⟨"collection_info.json", .jsonC none⟩] ∧
    apiExportMultipleStories [] stories fmt now
      = .error (.badRequest "No story IDs provided") :=
  ⟨rfl, rfl, rfl, rfl⟩

/-! ## C2 — unsupported format -/

/-- **C2 (code bug).**  The single-item path does validate the format
with a 400 error before any renderer runs, but the batch builder
`export_multiple_stories_zip` does not validate the format at all:
its per-item loop hits `else: continue` for `"docx"`, silently skipping
every story and returning an archive whose only entry is
`collection_info.json` — contradicting "the batch path validates the
format once, before iterating over the items, rather than per item"
(spec §9 itself flags this as a latent defect of the source). -/
theorem batch_builder_skips_unsupported_format :
    (exportMultipleStoriesZip [sampleA] "docx" 0).entries
      = [⟨"collection_info.json", .jsonC (generateCollectionMetadata [sampleA] 0)⟩] ∧
    apiExportStory sampleA "docx" 0 = .error (.badRequest invalidFormatMsg) :=
  ⟨rfl, rfl⟩

/-! ## C8 — determinism modulo footer timestamp -/

/-- **C8.**  For any snapshot, the plain-text rendering is a fixed list
of lines — depending only on the snapshot's fields — except for the
single footer line embedding the export timestamp: there are `pre` and
`post` (independent of the clock) with
`render(s, now) = join (pre ++ [footer now] ++ post)` for every `now`.
Two invocations therefore agree everywhere but that line. -/
theorem txt_deterministic_modulo_footer (s : Story) :
    ∃ pre post : List String, ∀ now : Instant,
      generateTxtContent s now = joinLines (pre ++ footerLine now :: post) := by
  refine ⟨txtHeaderLines s ++ txtRatingLines s ++ txtAiLines s
      ++ [sepRule, "STORY CONTENT", sepRule, "", s.content, "", sepRule],
    [repoLink], ?_⟩
  intro now
  rw [generateTxtContent, txtLinesOf, txtTailLines]
  simp [List.append_assoc]

/-! ## C9 — generation-method counters partition the batch -/

/-- **C9.**  For every non-empty batch, the two generation-method
counters partition it: `ai_generated + template_based = total_stories`,
and `total_stories` is the batch size (the template count is computed as
the complement of the AI count). -/
theorem generation_methods_partition (stories : List Story) (now : Instant)
    (hne : stories ≠ []) :
    ∃ m, generateCollectionMetadata stories now = some m ∧
      m.statistics.generation_methods.ai_generated
          + m.statistics.generation_methods.template_based
        = m.collection_info.total_stories ∧
      m.collection_info.total_stories = stories.length := by
  cases stories with
  | nil => exact absurd rfl hne
  | cons s0 rest =>
    exact ⟨_, rfl, Nat.add_sub_cancel' (List.countP_le_length _), rfl⟩

/-- Witness for `generation_methods_partition` at a concrete two-story
batch. -/
theorem generation_methods_partition_witness :
    ∃ m, generateCollectionMetadata [sampleA, sampleB] 0 = some m ∧
      m.statistics.generation_methods.ai_generated
          + m.statistics.generation_methods.template_based
        = m.collection_info.total_stories ∧
      m.collection_info.total_stories = [sampleA, sampleB].length :=
  generation_methods_partition [sampleA, sampleB] 0 (by simp)

/-! ## C10 — a rating of 0 behaves as an absent rating -/

/-- **C10.**  A stored rating of `0` (outside the documented `[1,5]`
domain but representable) is treated by every export operation exactly
like an absent rating, because all three sites gate on Python
truthiness: the plain-text lines and the paged-document elements are
identical to those of the unrated snapshot, and the aggregator's rated
filter — hence its `average_rating` — is unchanged when the story's
rating is `0` instead of `None`. -/
theorem rating_zero_behaves_as_unrated (s : Story) (now : Instant)
    (pre post : List Story) :
    txtLinesOf { s with rating := some 0 } now
      = txtLinesOf { s with rating := none } now ∧
    buildPdfElements { s with rating := some 0 } now
      = buildPdfElements { s with rating := none } now ∧
    ratedStories (pre ++ { s with rating := some 0 } :: post)
      = ratedStories (pre ++ { s with rating := none } :: post) ∧
    avgRatingField (pre ++ { s with rating := some 0 } :: post)
      = avgRatingField (pre ++ { s with rating := none } :: post) := by
  have hrs : ratedStories (pre ++ { s with rating := some 0 } :: post)
      = ratedStories (pre ++ { s with rating := none } :: post) := by
    simp [ratedStories, List.filter_append, List.filter_cons, truthyRating]
  refine ⟨?_, ?_, hrs, ?_⟩
  · simp [txtLinesOf, txtHeaderLines, txtRatingLines, txtAiLines, txtTailLines,
      truthyRating, Story.getGenreDisplay, Story.getLengthDisplay,
      Story.getToneDisplay, Story.word_count]
  · simp [buildPdfElements, pdfMetadataLines, pdfBodyElements, truthyRating,
      Story.getGenreDisplay, Story.getLengthDisplay, Story.getToneDisplay,
      Story.word_count]
  · simp only [avgRatingField, avgRatingRaw, hrs]

/-! ## C7 — the untitled-snapshot plain-text scenario -/

lemma prefix_line1_joinLines (a b : String) (l : List String) (x : String)
    (h : x = a ++ "\n") : x.data <+: (joinLines (a :: b :: l)).data := by
  rw [joinLines_cons, h]
  have hd : (a ++ "\n" ++ joinLines (b :: l)).data
      = (a ++ "\n").data ++ (joinLines (b :: l)).data := String.data_append ..
  rw [hd]
  exact List.prefix_append _ _

/-- **C7.**  For a snapshot with id 7, empty title and content
`"Once upon a time there was a dragon."` — all other fields arbitrary —
the plain-text rendering begins with the line `Title: Untitled Story`
(the empty title is substituted) and contains the exact substring
`Word Count: 8 words` (the whitespace-token count of the content). -/
theorem untitled_snapshot_txt_scenario (username keywords genre len tone : String)
    (created now : Instant) (rating : Option Int) (fav : Bool) (model : String) :
    ("Title: Untitled Story\n").data <+:
      (generateTxtContent
        ⟨7, "", username, keywords, genre, len, tone,
          "Once upon a time there was a dragon.", created, rating, fav, model⟩ now).data ∧
    ("Word Count: 8 words").data <:+:
      (generateTxtContent
        ⟨7, "", username, keywords, genre, len, tone,
          "Once upon a time there was a dragon.", created, rating, fav, model⟩ now).data := by
  constructor
  · simp only [generateTxtContent, txtLinesOf, txtHeaderLines, List.cons_append,
      List.nil_append]
    exact prefix_line1_joinLines _ _ _ _ (by decide)
  · have htok : whitespaceTokens "Once upon a time there was a dragon." = 8 := by
      decide
    have hwc : Story.word_count
        ⟨7, "", username, keywords, genre, len, tone,
          "Once upon a time there was a dragon.", created, rating, fav, model⟩ = 8 := by
      simp [Story.word_count, htok]
    have h8 : ("Word Count: "
          ++ toString (Story.word_count
            ⟨7, "", username, keywords, genre, len, tone,
              "Once upon a time there was a dragon.", created, rating, fav, model⟩)
          ++ " words") = "Word Count: 8 words" := by
      rw [hwc]
      decide
    have hmem : "Word Count: 8 words" ∈ txtLinesOf
        ⟨7, "", username, keywords, genre, len, tone,
          "Once upon a time there was a dragon.", created, rating, fav, model⟩ now := by
      rw [← h8]
      simp [txtLinesOf, txtHeaderLines]
    exact infix_of_mem_joinLines hmem

/-! ## C3 — average rating over rated items only -/

lemma ratedStories_eq_isSome_filter (stories : List Story)
    (hv : ∀ s ∈ stories, validRating s.rating = true) :
    ratedStories stories = stories.filter fun s => s.rating.isSome := by
  unfold ratedStories
  apply List.filter_congr
  intro s hs
  cases hr : s.rating with
  | none => simp [truthyRating, hr]
  | some v =>
    have hval := hv s hs
    rw [hr] at hval
    simp [validRating] at hval
    have hv0 : v ≠ 0 := by omega
    simp [truthyRating, hr, hv0]

lemma length_le_sumRatings (l : List Story)
    (h : ∀ s ∈ l, ∃ v, s.rating = some v ∧ 1 ≤ v) :
    (l.length : ℤ) ≤ sumRatings l := by
  induction l with
  | nil => simp [sumRatings]
  | cons a t ih =>
    obtain ⟨v, hv', h1⟩ := h a (List.mem_cons_self a t)
    have ht := ih fun s hs => h s (List.mem_cons_of_mem _ hs)
    have hsum : sumRatings (a :: t) = v + sumRatings t := by
      simp [sumRatings, hv']
    rw [hsum]
    have hlen : (((a :: t).length : ℕ) : ℤ) = (t.length : ℤ) + 1 := by
      push_cast [List.length_cons]
      ring
    rw [hlen]
    linarith

/-- **C3.**  For every non-empty batch whose ratings lie in the
documented domain (absent, or an integer in `[1,5]`), the metadata's
`average_rating` is present iff at least one item has a rating, and when
present it equals the mean of the rated items' ratings — the sum of the
rated ratings divided by the *rated* count — rounded to one decimal
place; when no item is rated the field is absent. -/
theorem average_rating_presence_and_value (stories : List Story) (now : Instant)
    (hne : stories ≠ [])
    (hv : ∀ s ∈ stories, validRating s.rating = true) :
    ∃ m, generateCollectionMetadata stories now = some m ∧
      ((m.statistics.average_rating).isSome ↔ ∃ s ∈ stories, s.rating.isSome) ∧
      ∀ q, m.statistics.average_rating = some q →
        q = pyRound1 ((sumRatings (stories.filter fun s => s.rating.isSome) : ℚ)
              / ((stories.filter fun s => s.rating.isSome).length : ℚ)) := by
  obtain ⟨s0, rest, rfl⟩ : ∃ s0 rest, stories = s0 :: rest := by
    cases stories with
    | nil => exact absurd rfl hne
    | cons a t => exact ⟨a, t, rfl⟩
  have hfilter : ratedStories (s0 :: rest)
      = (s0 :: rest).filter fun s => s.rating.isSome :=
    ratedStories_eq_isSome_filter _ hv
  refine ⟨_, rfl, ?_, ?_⟩
  all_goals by_cases hR : ((s0 :: rest).filter fun s => s.rating.isSome) = []
  case pos =>
    have hnone : avgRatingField (s0 :: rest) = none := by
      unfold avgRatingField avgRatingRaw
      rw [hfilter, if_pos hR]
    show (avgRatingField (s0 :: rest)).isSome ↔ ∃ s ∈ s0 :: rest, s.rating.isSome
    rw [hnone]
    simp only [Option.isSome_none, Bool.false_eq_true, false_iff]
    rintro ⟨s, hs, hsome⟩
    exact absurd hsome (by simpa using (List.filter_eq_nil_iff.mp hR) s hs)
  case neg =>
    obtain ⟨t0, hmem_t0⟩ := List.exists_mem_of_ne_nil _ hR
    have hsome' : avgRatingField (s0 :: rest)
        = some (pyRound1
            ((sumRatings ((s0 :: rest).filter fun s => s.rating.isSome) : ℚ)
              / (((s0 :: rest).filter fun s => s.rating.isSome).length : ℚ))) := by
      have hlen_pos : 0 < ((s0 :: rest).filter fun s => s.rating.isSome).length :=
        List.length_pos.mpr hR
      have hbound : ∀ s ∈ (s0 :: rest).filter (fun s => s.rating.isSome),
          ∃ v, s.rating = some v ∧ 1 ≤ v := by
        intro s hs
        have hs' := List.mem_filter.mp hs
        cases hrr : s.rating with
        | none => rw [hrr] at hs'; simp at hs'
        | some v =>
          have hval := hv s hs'.1
          rw [hrr] at hval
          simp [validRating] at hval
          exact ⟨v, rfl, hval.1⟩
      have hsum := length_le_sumRatings _ hbound
      have hq1 : (1 : ℚ)
          ≤ (sumRatings ((s0 :: rest).filter fun s => s.rating.isSome) : ℚ)
            / (((s0 :: rest).filter fun s => s.rating.isSome).length : ℚ) := by
        rw [one_le_div (by exact_mod_cast hlen_pos)]
        exact_mod_cast hsum
      have hne0 : (sumRatings ((s0 :: rest).filter fun s => s.rating.isSome) : ℚ)
            / (((s0 :: rest).filter fun s => s.rating.isSome).length : ℚ) ≠ 0 :=
        ne_of_gt (lt_of_lt_of_le zero_lt_one hq1)
      unfold avgRatingField avgRatingRaw
      rw [hfilter, if_neg hR]
      simp [hne0]
    show (avgRatingField (s0 :: rest)).isSome ↔ ∃ s ∈ s0 :: rest, s.rating.isSome
    rw [hsome']
    simp only [Option.isSome_some, true_iff]
    have hm := List.mem_filter.mp hmem_t0
    exact ⟨t0, hm.1, hm.2⟩
  case pos =>
    have hnone : avgRatingField (s0 :: rest) = none := by
      unfold avgRatingField avgRatingRaw
      rw [hfilter, if_pos hR]
    show ∀ q, avgRatingField (s0 :: rest) = some q → _
    intro q hq
    rw [hnone] at hq
    cases hq
  case neg =>
    have hsome' : avgRatingField (s0 :: rest)
        = some (pyRound1
            ((sumRatings ((s0 :: rest).filter fun s => s.rating.isSome) : ℚ)
              / (((s0 :: rest).filter fun s => s.rating.isSome).length : ℚ))) := by
      have hlen_pos : 0 < ((s0 :: rest).filter fun s => s.rating.isSome).length :=
        List.length_pos.mpr hR
      have hbound : ∀ s ∈ (s0 :: rest).filter (fun s => s.rating.isSome),
          ∃ v, s.rating = some v ∧ 1 ≤ v := by
        intro s hs
        have hs' := List.mem_filter.mp hs
        cases hrr : s.rating with
        | none => rw [hrr] at hs'; simp at hs'
        | some v =>
          have hval := hv s hs'.1
          rw [hrr] at hval
          simp [validRating] at hval
          exact ⟨v, rfl, hval.1⟩
      have hsum := length_le_sumRatings _ hbound
      have hq1 : (1 : ℚ)
          ≤ (sumRatings ((s0 :: rest).filter fun s => s.rating.isSome) : ℚ)
            / (((s0 :: rest).filter fun s => s.rating.isSome).length : ℚ) := by
        rw [one_le_div (by exact_mod_cast hlen_pos)]
        exact_mod_cast hsum
      have hne0 : (sumRatings ((s0 :: rest).filter fun s => s.rating.isSome) : ℚ)
            / (((s0 :: rest).filter fun s => s.rating.isSome).length : ℚ) ≠ 0 :=
        ne_of_gt (lt_of_lt_of_le zero_lt_one hq1)
      unfold avgRatingField avgRatingRaw
      rw [hfilter, if_neg hR]
      simp [hne0]
    show ∀ q, avgRatingField (s0 :: rest) = some q → _
    intro q hq
    rw [hsome'] at hq
    exact (Option.some.inj hq).symm

/-- Witness for `average_rating_presence_and_value` at a concrete batch
with one rated and one unrated story. -/
theorem average_rating_presence_and_value_witness :
    ∃ m, generateCollectionMetadata [sampleA, sampleB] 0 = some m ∧
      ((m.statistics.average_rating).isSome ↔ ∃ s ∈ [sampleA, sampleB], s.rating.isSome) ∧
      ∀ q, m.statistics.average_rating = some q →
        q = pyRound1 ((sumRatings ([sampleA, sampleB].filter fun s => s.rating.isSome) : ℚ)
              / (([sampleA, sampleB].filter fun s => s.rating.isSome).length : ℚ)) :=
  average_rating_presence_and_value [sampleA, sampleB] 0 (by simp) (by decide)

/-! ## C4 — total words are recomputed from content -/

/-- **C4.**  For every non-empty batch, the metadata's `total_words`
equals the sum over the batch of each item's word count recomputed from
its content, where the word count is the number of whitespace-delimited
tokens of the content (0 for empty content). -/
theorem total_words_recomputed (stories : List Story) (now : Instant)
    (hne : stories ≠ []) :
    ∃ m, generateCollectionMetadata stories now = some m ∧
      m.statistics.total_words
        = (stories.map fun s => whitespaceTokens s.content).sum := by
  obtain ⟨s0, rest, rfl⟩ : ∃ s0 rest, stories = s0 :: rest := by
    cases stories with
    | nil => exact absurd rfl hne
    | cons a t => exact ⟨a, t, rfl⟩
  refine ⟨_, rfl, ?_⟩
  show totalWords (s0 :: rest) = _
  unfold totalWords
  rw [show Story.word_count = (fun s => whitespaceTokens s.content) from
    funext word_count_eq_tokens]

/-- Witness for `total_words_recomputed` at a concrete two-story batch. -/
theorem total_words_recomputed_witness :
    ∃ m, generateCollectionMetadata [sampleA, sampleB] 0 = some m ∧
      m.statistics.total_words
        = ([sampleA, sampleB].map fun s => whitespaceTokens s.content).sum :=
  total_words_recomputed [sampleA, sampleB] 0 (by simp)

/-! ## C5 and C6 — archive shape and filenames -/

lemma zipEntryFor_of_supported (fmt : String) (hfmt : fmt ∈ supportedFormats)
    (now : Instant) (s : Story) :
    ∃ e : ZipEntry, zipEntryFor fmt now s = some e
      ∧ e.name = exportFilename s ("." ++ fmt) := by
  simp only [supportedFormats, List.mem_cons, List.mem_singleton,
    List.not_mem_nil, or_false] at hfmt
  rcases hfmt with rfl | rfl | rfl
  · exact ⟨_, rfl, rfl⟩
  · exact ⟨_, rfl, rfl⟩
  · exact ⟨_, rfl, rfl⟩

lemma zip_item_names (stories : List Story) (fmt : String) (now : Instant)
    (hfmt : fmt ∈ supportedFormats) :
    (stories.filterMap (zipEntryFor fmt now)).map (fun e => e.name)
      = stories.map fun s => exportFilename s ("." ++ fmt) := by
  induction stories with
  | nil => simp
  | cons a t ih =>
    obtain ⟨e, he, hn⟩ := zipEntryFor_of_supported fmt hfmt now a
    simp [List.filterMap_cons, he, hn, ih]

lemma zip_item_count (stories : List Story) (fmt : String) (now : Instant)
    (hfmt : fmt ∈ supportedFormats) :
    (stories.filterMap (zipEntryFor fmt now)).length = stories.length := by
  have h := congrArg List.length (zip_item_names stories fmt now hfmt)
  simpa using h

lemma getLast_append_of_getLast (x ext : String) (c : Char)
    (hc : ext.data.getLast? = some c) :
    (x ++ ext).data.getLast? = some c := by
  rw [String.data_append, List.getLast?_append, hc]
  rfl

lemma exportFilename_ne_collection_info (s : Story) (fmt : String)
    (hfmt : fmt ∈ supportedFormats) :
    exportFilename s ("." ++ fmt) ≠ "collection_info.json" := by
  intro h
  have hd : (exportFilename s ("." ++ fmt)).data.getLast?
      = ("collection_info.json" : String).data.getLast? := by rw [h]
  rw [show exportFilename s ("." ++ fmt)
      = (slugify (pyOr s.title "story") ++ "_" ++ toString s.id) ++ ("." ++ fmt)
    from rfl] at hd
  simp only [supportedFormats, List.mem_cons, List.mem_singleton,
    List.not_mem_nil, or_false] at hfmt
  have hn : ("collection_info.json" : String).data.getLast? = some 'n' := by decide
  rcases hfmt with rfl | rfl | rfl
  · rw [getLast_append_of_getLast _ _ 't' (by decide), hn] at hd
    cases hd
  · rw [getLast_append_of_getLast _ _ 'f' (by decide), hn] at hd
    cases hd
  · rw [getLast_append_of_getLast _ _ 'l' (by decide), hn] at hd
    cases hd

/-- **C5 (counterexample).**  At the concrete one-story batch, the
serialized metadata has no `total_stories` key under `statistics` —
the count lives under `collection_info` — so "`statistics.total_stories`
equals N" fails as stated even though the archive does hold N + 1
entries. -/
theorem statistics_total_stories_absent :
    ((jsonGet (jsonCollectionDocument (generateCollectionMetadata [sampleA] 0))
        "statistics").bind fun j => jsonGet j "total_stories") = none ∧
    ((jsonGet (jsonCollectionDocument (generateCollectionMetadata [sampleA] 0))
        "collection_info").bind fun j => jsonGet j "total_stories")
      = some (.num ((1 : Nat) : ℚ)) ∧
    (exportMultipleStoriesZip [sampleA] "txt" 0).entries.length = 2 :=
  ⟨rfl, rfl, rfl⟩

/-- **C5 (amended).**  For every non-empty batch of N items exported
with a supported format, the archive holds exactly N item entries plus
exactly one entry named `collection_info.json`, and the metadata's item
count — the `total_stories` field, which lives under `collection_info`
rather than `statistics` — equals N. -/
theorem archive_entry_counts (stories : List Story) (fmt : String) (now : Instant)
    (hne : stories ≠ []) (hfmt : fmt ∈ supportedFormats) :
    (exportMultipleStoriesZip stories fmt now).entries.length = stories.length + 1 ∧
    (exportMultipleStoriesZip stories fmt now).entries.countP
        (fun e => e.name == "collection_info.json") = 1 ∧
    ∃ m, generateCollectionMetadata stories now = some m ∧
      m.collection_info.total_stories = stories.length := by
  refine ⟨?_, ?_, ?_⟩
  · simp only [exportMultipleStoriesZip, List.length_append,
      zip_item_count stories fmt now hfmt, List.length_singleton]
  · simp only [exportMultipleStoriesZip, List.countP_append]
    have hzero : (stories.filterMap (zipEntryFor fmt now)).countP
        (fun e => e.name == "collection_info.json") = 0 := by
      rw [List.countP_eq_zero]
      intro e he
      obtain ⟨s, _, hs⟩ := List.mem_filterMap.mp he
      obtain ⟨e', he', hn'⟩ := zipEntryFor_of_supported fmt hfmt now s
      rw [he'] at hs
      cases hs
      exact fun hcontra => exportFilename_ne_collection_info s fmt hfmt
        (hn'.symm.trans (eq_of_beq hcontra))
    rw [hzero]
    rfl
  · cases stories with
    | nil => exact absurd rfl hne
    | cons s0 rest => exact ⟨_, rfl, rfl⟩

/-- Witness for `archive_entry_counts` at a concrete two-story TXT batch. -/
theorem archive_entry_counts_witness :
    (exportMultipleStoriesZip [sampleA, sampleB] "txt" 0).entries.length
        = [sampleA, sampleB].length + 1 ∧
    (exportMultipleStoriesZip [sampleA, sampleB] "txt" 0).entries.countP
        (fun e => e.name == "collection_info.json") = 1 ∧
    ∃ m, generateCollectionMetadata [sampleA, sampleB] 0 = some m ∧
      m.collection_info.total_stories = [sampleA, sampleB].length :=
  archive_entry_counts [sampleA, sampleB] "txt" 0 (by simp) (by decide)

/-- **C6 (counterexample).**  The spec's description of the slug is not
the source's `django.utils.text.slugify`: for the title `"a_b"` the
source keeps the underscore and produces `a_b_2.txt`, while the spec's
words — replace every non-alphanumeric run by a hyphen — would give
`a-b_2.txt`. -/
theorem filename_slug_not_spec_slug :
    (exportStoryTxt sampleB 0).filename = "a_b_2.txt" ∧
    specSlug (pyOr sampleB.title "story") ++ "_" ++ toString sampleB.id ++ ".txt"
      = "a-b_2.txt" ∧
    ("a_b_2.txt" : String) ≠ "a-b_2.txt" :=
  ⟨by decide, by decide, by decide⟩

/-- **C6 (amended).**  Every exported item's filename — in batch
archives and in single-item downloads for all three formats — equals
`slugify(title or "story") + "_" + id + extension`, where `slugify` is
Django's: it lower-cases, *deletes* characters that are not alphanumeric,
underscore, hyphen or whitespace, collapses runs of whitespace and
hyphens into a single hyphen, and trims leading/trailing hyphens and
underscores (underscores in the title survive; they are not turned into
hyphens). -/
theorem export_filenames_follow_slug_pattern (stories : List Story) (fmt : String)
    (now : Instant) (hfmt : fmt ∈ supportedFormats) :
    ((exportMultipleStoriesZip stories fmt now).entries.map fun e => e.name)
      = (stories.map fun s =>
          slugify (pyOr s.title "story") ++ "_" ++ toString s.id ++ ("." ++ fmt))
        ++ ["collection_info.json"] ∧
    (∀ s : Story, (exportStoryTxt s now).filename
        = slugify (pyOr s.title "story") ++ "_" ++ toString s.id ++ ".txt") ∧
    (∀ s : Story, (exportStoryPdf s now).filename
        = slugify (pyOr s.title "story") ++ "_" ++ toString s.id ++ ".pdf") ∧
    (∀ s : Story, (exportStoryHtml s now).filename
        = slugify (pyOr s.title "story") ++ "_" ++ toString s.id ++ ".html") := by
  refine ⟨?_, fun s => rfl, fun s => rfl, fun s => rfl⟩
  simp only [exportMultipleStoriesZip, List.map_append,
    zip_item_names stories fmt now hfmt]
  rfl

/-- Witness for `export_filenames_follow_slug_pattern` at a concrete
one-story HTML batch. -/
theorem export_filenames_follow_slug_pattern_witness :
    ((exportMultipleStoriesZip [sampleA] "html" 0).entries.map fun e => e.name)
      = ([sampleA].map fun s =>
          slugify (pyOr s.title "story") ++ "_" ++ toString s.id ++ ("." ++ "html"))
        ++ ["collection_info.json"] ∧
    (∀ s : Story, (exportStoryTxt s 0).filename
        = slugify (pyOr s.title "story") ++ "_" ++ toString s.id ++ ".txt") ∧
    (∀ s : Story, (exportStoryPdf s 0).filename
        = slugify (pyOr s.title "story") ++ "_" ++ toString s.id ++ ".pdf") ∧
    (∀ s : Story, (exportStoryHtml s 0).filename
        = slugify (pyOr s.title "story") ++ "_" ++ toString s.id ++ ".html") :=
  export_filenames_follow_slug_pattern [sampleA] "html" 0 (by decide)
